import Mathlib

set_option maxRecDepth 200000

/-!
Shallow embedding of `amiibotool.js` (an NFC amiibo tag manipulation CLI).

Bytes are modelled as `Nat` (JS numbers in byte positions; the `^` operator in
JS coerces via ToInt32, and storing into a `Buffer` truncates — all byte values
produced by the source stay below 256, where these coercions are the identity).
A JS `NaN` (produced by `parseInt` on non-hex input) is modelled by `Option Nat`
with `none` for NaN; the coercion `jsByte` maps `none` to `0`, matching the
behaviour of `NaN` in the downstream byte-store and XOR contexts of the source.

The external `maboii` library (`unpack`/`pack`) is an opaque keyed oracle,
modelled as a pair of functions (the spec treats it as an external collaborator
with contract `decode(key, packed540) -> {ok, logical540}`,
`encode(key, logical540) -> packed540`).

File-system effects: reading is modelled by passing file contents in
(`SrcFile`), writing by returning the bytes that `fs.writeFileSync` would
persist in the `.ok` branch of an `Except`; an `.error` result means the
pipeline threw before the write, so nothing was persisted.
-/

namespace AmiiboTool

/-- Error taxonomy of the source's thrown `Error`s, keyed by their messages:
`ValidationError` = "UID must be exactly 14 hex characters" / "Amiibo ID must
be 16 hex characters"; `HmacError` = "Failed to unpack ... - invalid HMAC";
`FormatError` = "Not a valid Flipper NFC file"; `SizeError` = "Invalid NFC
data size". -/
inductive AmiiboError where
  | validationError
  | hmacError
  | formatError
  | sizeError
deriving DecidableEq, Repr

/-- An input file: `filePath.toLowerCase().split('.').pop() === 'nfc'` selects
the text adapter, anything else the binary adapter (`fs.readFileSync` bytes). -/
inductive SrcFile where
  | bin (data : List Nat)
  | nfc (content : String)
deriving DecidableEq, Repr

/-- The opaque maboii oracle holding the master keys:
`unpack` returns `(result, unpacked)`, `pack` returns the packed image. -/
structure Oracle where
  unpack : List Nat → Bool × List Nat
  pack : List Nat → List Nat

/-- JS coercion of a possibly-NaN number to a stored byte
(`NaN` behaves as `0` under ToInt32 and Buffer storage). -/
def jsByte : Option Nat → Nat
  | some n => n
  | none => 0

/-- `[0-9A-F]` case-insensitively, i.e. the regex class `[0-9A-F]` under `/i`. -/
def isHexDigitCh (c : Char) : Bool :=
  ('0' ≤ c && c ≤ '9') || ('a' ≤ c && c ≤ 'f') || ('A' ≤ c && c ≤ 'F')

/-- `\d` — a decimal digit. -/
def isDigitCh (c : Char) : Bool := '0' ≤ c && c ≤ '9'

/-- Value of a hex digit character. -/
def hexVal (c : Char) : Nat :=
  if '0' ≤ c && c ≤ '9' then c.toNat - '0'.toNat
  else if 'a' ≤ c && c ≤ 'f' then c.toNat - 'a'.toNat + 10
  else if 'A' ≤ c && c ≤ 'F' then c.toNat - 'A'.toNat + 10
  else 0

/-- Numeric value of a list of hex digits (most significant first). -/
def hexListVal (ds : List Char) : Nat :=
  ds.foldl (fun acc c => acc * 16 + hexVal c) 0

/-- `parseInt(s, 16)` on a short fragment: strips an optional `0x`/`0X`
prefix, then parses the longest leading run of hex digits; `none` models the
`NaN` returned when no digit is found. (Leading whitespace / sign handling of
full `parseInt` never arises for the 2-character substrings the source feeds
in.) -/
def jsParseIntHex (cs : List Char) : Option Nat :=
  let cs' := match cs with
    | '0' :: 'x' :: rest => rest
    | '0' :: 'X' :: rest => rest
    | _ => cs
  let ds := cs'.takeWhile isHexDigitCh
  if ds.isEmpty then none else some (hexListVal ds)

/-- Case-insensitive character equality (regex `/i` flag). -/
def ciEq (a b : Char) : Bool := a.toLower == b.toLower

/-- Match a case-insensitive literal at the head of the input, returning the
rest on success. -/
def matchLitCI : List Char → List Char → Option (List Char)
  | [], cs => some cs
  | _ :: _, [] => none
  | p :: ps, c :: cs => if ciEq p c then matchLitCI ps cs else none

/-- Match the regex fragment `([0-9A-F]{2})` (under `/i`) at the head,
returning the captured byte value and the rest. -/
def matchHex2 : List Char → Option (Nat × List Char)
  | a :: b :: cs =>
      if isHexDigitCh a && isHexDigitCh b then
        some (hexVal a * 16 + hexVal b, cs)
      else none
  | _ => none

/-- Match `Page \d+: hh hh hh hh` (the source's page regex, `/i`) anchored at
the head of the input; returns the four captured bytes
(`parseInt(match[i], 16)` of two hex digits). `\d+` is greedy and followed by
`: `, so it consumes the maximal digit run. -/
def matchPageAt (cs : List Char) : Option (List Nat) := do
  let cs ← matchLitCI "Page ".toList cs
  let ds := cs.takeWhile isDigitCh
  if ds.isEmpty then none else
  let cs := cs.dropWhile isDigitCh
  let cs ← match cs with | ':' :: ' ' :: r => some r | _ => none
  let (b1, cs) ← matchHex2 cs
  let cs ← match cs with | ' ' :: r => some r | _ => none
  let (b2, cs) ← matchHex2 cs
  let cs ← match cs with | ' ' :: r => some r | _ => none
  let (b3, cs) ← matchHex2 cs
  let cs ← match cs with | ' ' :: r => some r | _ => none
  let (b4, _) ← matchHex2 cs
  some [b1, b2, b3, b4]

/-- `line.match(regex)`: scan for the first position where the page regex
matches (unanchored, as in JS `String.prototype.match`). -/
def scanPageMatch : List Char → Option (List Nat)
  | [] => matchPageAt []
  | c :: rest => (matchPageAt (c :: rest)).orElse (fun _ => scanPageMatch rest)

/-- Exact (case-sensitive) substring containment, JS `String.includes`. -/
def containsSeq (needle : List Char) (hay : List Char) : Bool :=
  needle.isPrefixOf hay ||
    match hay with
    | [] => false
    | _ :: rest => containsSeq needle rest

/-- Exact prefix test, JS `String.startsWith`, on character lists. -/
def jsStartsWith (prefixStr : List Char) (line : List Char) : Bool :=
  prefixStr.isPrefixOf line

/-- Accumulator-based splitter for `splitLines` (the accumulator holds the
current line reversed). -/
def splitLinesAux : List Char → List Char → List (List Char)
  | [], acc => [acc.reverse]
  | c :: rest, acc =>
      if c = '\n' then acc.reverse :: splitLinesAux rest []
      else splitLinesAux rest (c :: acc)

/-- JS `content.split('\n')`: the list of lines (never empty, no
separators). -/
def splitLines (content : String) : List (List Char) :=
  splitLinesAux content.toList []

/-- Bytes contributed by one line of a Flipper NFC file: lines starting with
the (case-sensitive) literal `"Page "` whose body matches the page regex push
four bytes; a line that starts like a page line but fails the regex is
silently skipped (`if (match)` with no else), as is every other line. -/
def lineBytes (line : List Char) : List Nat :=
  if jsStartsWith "Page ".toList line then (scanPageMatch line).getD [] else []

/-- The page-data accumulation of `parseNFCFile`: every line is scanned in
file order of appearance. -/
def pagesOf (content : String) : List Nat :=
  ((splitLines content).map lineBytes).flatten

/-- Does line 1 contain the fixed device-header marker
(`lines[0].includes('Flipper NFC device')`)? -/
def headerOk (content : String) : Bool :=
  containsSeq "Flipper NFC device".toList ((splitLines content).headD [])

/-- `parseNFCFile` (text adapter): header check, page accumulation, then the
540-byte total check. -/
def parseNFCFile (content : String) : Except AmiiboError (List Nat) :=
  if !headerOk content then .error .formatError
  else if (pagesOf content).length ≠ 540 then .error .sizeError
  else .ok (pagesOf content)

/-- `readTemplateFile`: `.nfc` goes through the text adapter, everything else
is read as raw binary (no size check on the binary path). -/
def readTemplateFile : SrcFile → Except AmiiboError (List Nat)
  | .nfc content => parseNFCFile content
  | .bin data => .ok data

/-- `generateRandomUID`: byte 0 fixed `0x04`, bytes 1–6 taken from the
6 random bytes (modelled as an explicit parameter `rnd`). -/
def generateRandomUID (rnd : List Nat) : List Nat :=
  0x04 :: (List.range 6).map (fun i => rnd.getD i 0)

/-- `parseCustomUID`: rejects (throws `ValidationError`) exactly when the
string length differs from 14; otherwise parses the seven 2-character
substrings with `parseInt(·, 16)` — which yields `NaN` (`none`), not an
error, on non-hex pairs. -/
def parseCustomUID (uidHex : String) : Except AmiiboError (List (Option Nat)) :=
  if uidHex.length ≠ 14 then .error .validationError
  else .ok ((List.range 7).map (fun i => jsParseIntHex ((uidHex.toList.drop (2 * i)).take 2)))

/-- `calculateBCC0`: `uid[0] ^ uid[1] ^ uid[2] ^ 0x88`. -/
def calculateBCC0 (uid : List Nat) : Nat :=
  uid.getD 0 0 ^^^ uid.getD 1 0 ^^^ uid.getD 2 0 ^^^ 0x88

/-- `calculatePWD`: reconstruct the 7-byte UID from the packed bytes skipping
the BCC0 slot at index 3, then apply the fixed XOR formulas (masked `& 0xFF`). -/
def calculatePWD (packedUID : List Nat) : List Nat :=
  let uid7 := [packedUID.getD 0 0, packedUID.getD 1 0, packedUID.getD 2 0,
               packedUID.getD 4 0, packedUID.getD 5 0, packedUID.getD 6 0,
               packedUID.getD 7 0]
  [(0xAA ^^^ uid7.getD 1 0 ^^^ uid7.getD 3 0) &&& 0xFF,
   (0x55 ^^^ uid7.getD 2 0 ^^^ uid7.getD 4 0) &&& 0xFF,
   (0xAA ^^^ uid7.getD 3 0 ^^^ uid7.getD 5 0) &&& 0xFF,
   (0x55 ^^^ uid7.getD 4 0 ^^^ uid7.getD 6 0) &&& 0xFF]

/-- Sequential byte-store loop `for i: l[start+i] = bs[i]` (JS array index
assignment; faithful whenever the indices stay inside the array, which the
pipeline hypotheses guarantee). -/
def writeBytes (l : List Nat) (start : Nat) (bs : List Nat) : List Nat :=
  match bs with
  | [] => l
  | b :: rest => writeBytes (l.set start b) (start + 1) rest

/-- `arr.slice(a, b)`. -/
def slice (l : List Nat) (a b : Nat) : List Nat :=
  (l.drop a).take (b - a)

/-- Lower-case hex digit character, as produced by `Number.toString(16)`. -/
def hexDigitCh (n : Nat) : Char :=
  if n < 10 then Char.ofNat ('0'.toNat + n) else Char.ofNat ('a'.toNat + (n - 10))

/-- `b.toString(16).padStart(2, '0')` for a byte value. -/
def byteHex (n : Nat) : List Char :=
  [hexDigitCh (n / 16 % 16), hexDigitCh (n % 16)]

/-- `bytes.map(b => b.toString(16).padStart(2, '0')).join('')`. -/
def bytesToHex (bs : List Nat) : String :=
  ⟨(bs.map byteHex).flatten⟩

/-- The report object returned by `validateBin` on its success path
(presentation hex-joins of `uid`/`amiiboId` kept as raw byte lists). -/
structure Report where
  valid : Bool
  uid : List Nat
  amiiboId : List Nat
  hmacValid : Bool
  pos8Valid : Bool
  pwdValid : Bool
  packValid : Bool
deriving DecidableEq, Repr

/-- `validateBin` returns either the JS literal `false` (any early exit or
caught exception) or a report object. -/
inductive ValidationOutcome where
  | invalid
  | report (r : Report)
deriving DecidableEq, Repr

/-- `validateBin(filePath)`. The input is `none` when `fs.existsSync` is
false, otherwise the file's contents. A thrown adapter error is caught and
converted to the `false` return (the catch of lines 207–210); a non-540
buffer and a failed unpack also return `false`. Only after a successful
unpack is the report computed, once `pos8Valid`, `pwdValid` and `packValid`
have been derived from the raw packed bytes. (`const pos8Actual =
uid[8] || dataArray[8]`: `uid` has 8 entries, so `uid[8]` is `undefined` and
`dataArray[8]` is always used.) -/
def validateBin (o : Oracle) (file : Option SrcFile) : ValidationOutcome :=
  match file with
  | none => .invalid
  | some f =>
    match readTemplateFile f with
    | .error _ => .invalid
    | .ok fileData =>
      if fileData.length ≠ 540 then .invalid
      else
        let dataArray := fileData
        let res := (o.unpack dataArray).1
        if !res then .invalid
        else
          let uid := dataArray.take 8
          let pos8Expected := uid.getD 4 0 ^^^ uid.getD 5 0 ^^^ uid.getD 6 0 ^^^ uid.getD 7 0
          let pos8Actual := dataArray.getD 8 0
          let pos8Valid := pos8Expected == pos8Actual
          let amiiboId := slice dataArray 84 92
          let pwd := slice dataArray 532 536
          let pack := slice dataArray 536 538
          let uid7 := [uid.getD 0 0, uid.getD 1 0, uid.getD 2 0,
                       uid.getD 4 0, uid.getD 5 0, uid.getD 6 0, uid.getD 7 0]
          let expectedPwd := [(0xAA ^^^ uid7.getD 1 0 ^^^ uid7.getD 3 0) &&& 0xFF,
                              (0x55 ^^^ uid7.getD 2 0 ^^^ uid7.getD 4 0) &&& 0xFF,
                              (0xAA ^^^ uid7.getD 3 0 ^^^ uid7.getD 5 0) &&& 0xFF,
                              (0x55 ^^^ uid7.getD 4 0 ^^^ uid7.getD 6 0) &&& 0xFF]
          let pwdValid := pwd == expectedPwd
          let packValid := (pack.getD 0 0 == 0x80) && (pack.getD 1 0 == 0x80)
          let isValid := res && pos8Valid && pwdValid && packValid
          .report { valid := isValid, uid := uid, amiiboId := amiiboId,
                    hmacValid := res, pos8Valid := pos8Valid,
                    pwdValid := pwdValid, packValid := packValid }

/-- `r.result && r.result.valid` — the predicate the batch summary counts. -/
def isValidResult : ValidationOutcome → Bool
  | .report r => r.valid
  | .invalid => false

/-- The batch result of `validateFiles`: the per-file results array plus the
printed summary counts (valid / invalid / total). -/
structure BatchResult where
  results : List (Option SrcFile × ValidationOutcome)
  validCount : Nat
  invalidCount : Nat
  total : Nat
deriving Repr

/-- `validateFiles(filePaths)` (key loading is modelled by the oracle
parameter): validates each file in order, then computes the summary
`validFiles = results.filter(r => r.result && r.result.valid).length`,
`invalidFiles = results.length - validFiles`. -/
def validateFiles (o : Oracle) (files : List (Option SrcFile)) : BatchResult :=
  let results := files.map (fun f => (f, validateBin o f))
  let validFiles := (results.filter (fun p => isValidResult p.2)).length
  { results := results
    validCount := validFiles
    invalidCount := results.length - validFiles
    total := results.length }

/-- `customUID ? this.parseCustomUID(customUID) : this.generateRandomUID()`
(shared by both pipelines; the only throw here is `parseCustomUID`'s
`ValidationError`). The JS condition tests truthiness, and the empty string
is falsy: `customUID = ""` takes the random-UID branch, exactly like
`null`. -/
def deriveNewUID (customUID : Option String) (rnd : List Nat) :
    Except AmiiboError (List Nat) :=
  match customUID with
  | some s =>
      if s = "" then .ok (generateRandomUID rnd)
      else (parseCustomUID s).map (fun l => l.map jsByte)
  | none => .ok (generateRandomUID rnd)

/-- The throw-free tail of `changeUID`, lines 263–307 of the source: capture
the original amiibo id from the *packed* template bytes, patch the new UID
block at logical 468–475, pack via the oracle, then patch position 8, restore
the amiibo id at 84–91, patch the derived PWD at 532–535 and PACK at 536–537.
The result is the byte image handed to `fs.writeFileSync`. -/
def changeUIDPost (o : Oracle) (templateData unpackedData newUID : List Nat) :
    List Nat :=
  let originalAmiiboID := slice templateData 84 92
  let bcc0 := calculateBCC0 newUID
  let unpackedData := writeBytes unpackedData 468
    [newUID.getD 0 0, newUID.getD 1 0, newUID.getD 2 0, bcc0,
     newUID.getD 3 0, newUID.getD 4 0, newUID.getD 5 0, newUID.getD 6 0]
  let packedData := o.pack unpackedData
  let packedData := writeBytes packedData 8
    [packedData.getD 4 0 ^^^ packedData.getD 5 0 ^^^ packedData.getD 6 0 ^^^ packedData.getD 7 0]
  let packedData := writeBytes packedData 84 originalAmiiboID
  let pwd := calculatePWD packedData
  let packedData := writeBytes packedData 532 pwd
  let packedData := writeBytes packedData 536 [0x80, 0x80]
  packedData

/-- `changeUID(templatePath, outputPath, customUID)`: reads the template,
unpacks via the oracle (aborting with `HmacError` on a failed signature),
derives the new UID (custom parse — which may abort with `ValidationError` —
or random), then runs the throw-free tail `changeUIDPost` and persists. The
returned `.ok` payload is the byte image written by `fs.writeFileSync`; an
`.error` result means the pipeline threw before the write. -/
def changeUID (o : Oracle) (template : SrcFile) (customUID : Option String)
    (rnd : List Nat) : Except AmiiboError (List Nat) :=
  match readTemplateFile template with
  | .error e => .error e
  | .ok templateData =>
    if !(o.unpack templateData).1 then .error .hmacError
    else
      match deriveNewUID customUID rnd with
      | .error e => .error e
      | .ok newUID =>
        .ok (changeUIDPost o templateData (o.unpack templateData).2 newUID)

/-- The fixed 8-byte magic block written at offset 9 (both domains). -/
def magicBytes1 : List Nat := [0x48, 0x0f, 0xe0, 0xf1, 0x10, 0xff, 0xee, 0xa5]

/-- The fixed 20-byte magic block written at logical offset 520. -/
def magicBytes2 : List Nat :=
  [0x01, 0x00, 0x0f, 0xbf, 0x00, 0x00, 0x00, 0x04,
   0x5f, 0x00, 0x00, 0x00, 0x4e, 0xdb, 0xf1, 0x28,
   0x80, 0x80, 0x00, 0x00]

/-- The 16-hex-character id string parsed into 8 bytes with
`parseInt(·, 16)` (lines 376–379 of the source). -/
def parseAmiiboIdBytes (amiiboId : String) : List Nat :=
  (List.range 8).map
    (fun i => jsByte (jsParseIntHex ((amiiboId.toList.drop (2 * i)).take 2)))

/-- The logical image prepared by `generateFresh` (lines 338–383 of the
source): a zero 540-byte image with the UID block patched at 468–475, the
magic blocks at logical 9 and 520, and the parsed character-id bytes at
476–483. -/
def genLogical (newUID idBytes : List Nat) : List Nat :=
  writeBytes (writeBytes (writeBytes (writeBytes (List.replicate 540 0) 468
    [newUID.getD 0 0, newUID.getD 1 0, newUID.getD 2 0, calculateBCC0 newUID,
     newUID.getD 3 0, newUID.getD 4 0, newUID.getD 5 0, newUID.getD 6 0])
    9 magicBytes1) 520 magicBytes2) 476 idBytes

/-- The throw-free tail of `generateFresh`, lines 338–411 of the source
(pure patches reordered after the id-length check, which they cannot
observe): prepare the logical image (`genLogical`), pack via the oracle,
re-patch the 8-byte magic at packed 9 (lost during packing), then patch
position 8, the derived PWD at 532–535 and PACK at 536–537. The result is
the byte image handed to `fs.writeFileSync`. -/
def generateFreshPost (o : Oracle) (newUID idBytes : List Nat) : List Nat :=
  let packedData := o.pack (genLogical newUID idBytes)
  let packedData := writeBytes packedData 9 magicBytes1
  let packedData := writeBytes packedData 8
    [packedData.getD 4 0 ^^^ packedData.getD 5 0 ^^^ packedData.getD 6 0 ^^^ packedData.getD 7 0]
  let pwd := calculatePWD packedData
  let packedData := writeBytes packedData 532 pwd
  let packedData := writeBytes packedData 536 [0x80, 0x80]
  packedData

/-- `generateFresh(amiiboId, outputPath, customUID)`: derive the UID (custom
parse may abort with `ValidationError`), check the 16-hex-character id length
(aborting with `ValidationError` — in source order the UID derivation comes
first), then run the throw-free tail `generateFreshPost` and persist (`.ok`
payload = bytes written; `.error` = nothing written). -/
def generateFresh (o : Oracle) (amiiboId : String) (customUID : Option String)
    (rnd : List Nat) : Except AmiiboError (List Nat) :=
  match deriveNewUID customUID rnd with
  | .error e => .error e
  | .ok newUID =>
    if amiiboId.length ≠ 16 then .error .validationError
    else .ok (generateFreshPost o newUID (parseAmiiboIdBytes amiiboId))

/-- Did the `Except` computation succeed (i.e. in JS, return without
throwing)? -/
def isOkE : Except AmiiboError (List (Option Nat)) → Bool
  | .ok _ => true
  | .error _ => false

/-- Is the outcome a report object (as opposed to the literal `false`)? -/
def ValidationOutcome.isReport : ValidationOutcome → Bool
  | .report _ => true
  | .invalid => false

/-! ### Concrete fixtures used by witnesses and counterexamples -/

/-- A 540-byte all-zero binary image. -/
def zeros540 : List Nat := List.replicate 540 0

/-- An oracle whose decode always reports an invalid signature. -/
def badSigOracle : Oracle := { unpack := fun _ => (false, []), pack := fun l => l }

/-- A contract-conforming oracle (decode succeeds, encode always returns a
540-byte image) whose encode ignores its input and returns all zeros. -/
def zeroPackOracle : Oracle :=
  { unpack := fun d => (true, d), pack := fun _ => List.replicate 540 0 }

/-- A contract-conforming oracle whose encode pads/truncates its input to
540 bytes. -/
def padOracle : Oracle :=
  { unpack := fun d => (true, d)
    pack := fun l => (l ++ List.replicate 540 0).take 540 }

/-- A contract-conforming oracle whose encode moves the logical UID block
(468–475) to packed 0–7 and the logical character id (476–483) to packed
84–91, keeping other bytes in place. -/
def layoutOracle : Oracle :=
  { unpack := fun d => (true, d)
    pack := fun l => slice l 468 476 ++ (slice l 8 84 ++ (slice l 476 484 ++ slice l 92 540)) }

/-- A 540-byte template whose character-id region 84–91 holds `[1..8]`. -/
def tmplWithId : List Nat := writeBytes zeros540 84 [1, 2, 3, 4, 5, 6, 7, 8]

/-- Text-format content consisting of only the device-header line. -/
def headerOnlyNfc : String := "Flipper NFC device"

/-- Text-format content with a valid header, one malformed page line (starts
with `"Page "` but fails the page grammar) and 135 well-formed page lines. -/
def malformedNfc : String :=
  "Flipper NFC device\nPage X: ZZ\n" ++
    String.intercalate "\n" (List.replicate 135 "Page 1: 00 11 22 33")

/-- The image persisted by `changeUID` under `zeroPackOracle` on the zero
template with a zero random UID. -/
def c4out : List Nat :=
  (changeUID zeroPackOracle (SrcFile.bin zeros540) none [0, 0, 0, 0, 0, 0]).toOption.getD []

/-- The image persisted by `changeUID` under `padOracle` on the zero
template. -/
def c4outC : List Nat :=
  (changeUID padOracle (SrcFile.bin zeros540) none [1, 2, 3, 4, 5, 6]).toOption.getD []

/-- The image persisted by `generateFresh` under `padOracle`. -/
def c4outG : List Nat :=
  (generateFresh padOracle "1919000000090002" none [1, 2, 3, 4, 5, 6]).toOption.getD []

/-- The image persisted by `changeUID` under `padOracle` on `tmplWithId`. -/
def c5out : List Nat :=
  (changeUID padOracle (SrcFile.bin tmplWithId) none [9, 9, 9, 9, 9, 9]).toOption.getD []

/-- The image persisted by the `generateFresh` scenario under
`layoutOracle`. -/
def c9out : List Nat :=
  (generateFresh layoutOracle "1919000000090002" (some "0451186d0da09e") []).toOption.getD []

/-! ### Index bookkeeping for the byte-store loops -/

theorem length_writeBytes (bs : List Nat) (l : List Nat) (start : Nat) :
    (writeBytes l start bs).length = l.length := by
  induction bs generalizing l start with
  | nil => rfl
  | cons b rest ih => rw [writeBytes, ih, List.length_set]

theorem getElem?_writeBytes (bs : List Nat) (l : List Nat) (start j : Nat) :
    (writeBytes l start bs)[j]? =
      if start ≤ j ∧ j < start + bs.length ∧ j < l.length then bs[j - start]?
      else l[j]? := by
  induction bs generalizing l start with
  | nil =>
    rw [writeBytes, if_neg]
    simp only [List.length_nil]
    omega
  | cons b rest ih =>
    rw [writeBytes, ih]
    by_cases h1 : start + 1 ≤ j ∧ j < start + 1 + rest.length ∧ j < (l.set start b).length
    · rw [if_pos h1]
      rw [List.length_set] at h1
      rw [if_pos (by simp only [List.length_cons]; omega)]
      have hj : j - start = (j - (start + 1)) + 1 := by omega
      rw [hj]
      simp
    · rw [if_neg h1, List.getElem?_set]
      rw [List.length_set] at h1
      by_cases h2 : start = j
      · subst h2
        by_cases h3 : start < l.length
        · rw [if_pos rfl, if_pos h3,
              if_pos (by simp only [List.length_cons]; omega)]
          simp
        · rw [if_pos rfl, if_neg h3, if_neg (by simp only [List.length_cons]; omega)]
          exact (List.getElem?_eq_none (by omega)).symm
      · rw [if_neg h2, if_neg (by simp only [List.length_cons]; omega)]

theorem writeBytes_getElem?_miss (l bs : List Nat) (start j : Nat)
    (h : j < start ∨ start + bs.length ≤ j) :
    (writeBytes l start bs)[j]? = l[j]? := by
  rw [getElem?_writeBytes, if_neg]
  omega

theorem writeBytes_getElem?_hit (l bs : List Nat) (start j : Nat)
    (h1 : start ≤ j) (h2 : j < start + bs.length) (h3 : j < l.length) :
    (writeBytes l start bs)[j]? = bs[j - start]? := by
  rw [getElem?_writeBytes, if_pos ⟨h1, h2, h3⟩]

theorem writeBytes_getD_miss (l bs : List Nat) (start j : Nat)
    (h : j < start ∨ start + bs.length ≤ j) :
    (writeBytes l start bs).getD j 0 = l.getD j 0 := by
  rw [List.getD_eq_getElem?_getD, List.getD_eq_getElem?_getD,
      writeBytes_getElem?_miss l bs start j h]

theorem getElem?_slice (l : List Nat) (a b j : Nat) :
    (slice l a b)[j]? = if j < b - a then l[a + j]? else none := by
  unfold slice
  by_cases h : j < b - a
  · rw [if_pos h, List.getElem?_take_of_lt h, List.getElem?_drop]
  · rw [if_neg h]
    apply List.getElem?_eq_none
    simp only [List.length_take, List.length_drop]
    omega

theorem length_slice (l : List Nat) (a b : Nat) :
    (slice l a b).length = min (b - a) (l.length - a) := by
  simp [slice]

theorem slice_writeBytes_disjoint (l bs : List Nat) (start a b : Nat)
    (h : b ≤ start ∨ start + bs.length ≤ a) :
    slice (writeBytes l start bs) a b = slice l a b := by
  apply List.ext_getElem?
  intro j
  rw [getElem?_slice, getElem?_slice]
  by_cases hj : j < b - a
  · rw [if_pos hj, if_pos hj, writeBytes_getElem?_miss]
    omega
  · rw [if_neg hj, if_neg hj]

theorem slice_writeBytes_exact (l bs : List Nat) (start : Nat)
    (h : start + bs.length ≤ l.length) :
    slice (writeBytes l start bs) start (start + bs.length) = bs := by
  apply List.ext_getElem?
  intro j
  rw [getElem?_slice]
  by_cases hj : j < start + bs.length - start
  · rw [if_pos hj, writeBytes_getElem?_hit l bs start (start + j) (by omega) (by omega)
        (by omega)]
    congr 1
    omega
  · rw [if_neg hj]
    exact (List.getElem?_eq_none (by omega)).symm

theorem calculatePWD_congr (l₁ l₂ : List Nat)
    (h : ∀ j, j < 8 → l₁.getD j 0 = l₂.getD j 0) :
    calculatePWD l₁ = calculatePWD l₂ := by
  simp only [calculatePWD]
  rw [h 0 (by omega), h 1 (by omega), h 2 (by omega), h 4 (by omega),
      h 5 (by omega), h 6 (by omega), h 7 (by omega)]

theorem writeBytes_getD_hit (l bs : List Nat) (start j : Nat)
    (h1 : start ≤ j) (h2 : j < start + bs.length) (h3 : j < l.length) :
    (writeBytes l start bs).getD j 0 = bs.getD (j - start) 0 := by
  rw [List.getD_eq_getElem?_getD, List.getD_eq_getElem?_getD,
      writeBytes_getElem?_hit l bs start j h1 h2 h3]

theorem length_calculatePWD (l : List Nat) : (calculatePWD l).length = 4 := rfl

/-- The shared final stage of both pipelines: patching the derived PWD at
532–535 and PACK at 536–537 onto a 540-byte image `B` whose position-8
equation already holds yields an image satisfying the position-8, PWD and
PACK invariants. -/
theorem pwdPackTail_invariants (B : List Nat) (hB : B.length = 540)
    (h8 : B.getD 8 0 = B.getD 4 0 ^^^ B.getD 5 0 ^^^ B.getD 6 0 ^^^ B.getD 7 0) :
    (writeBytes (writeBytes B 532 (calculatePWD B)) 536 [0x80, 0x80]).length = 540 ∧
    (writeBytes (writeBytes B 532 (calculatePWD B)) 536 [0x80, 0x80]).getD 8 0 =
      ((writeBytes (writeBytes B 532 (calculatePWD B)) 536 [0x80, 0x80]).getD 4 0 ^^^
       (writeBytes (writeBytes B 532 (calculatePWD B)) 536 [0x80, 0x80]).getD 5 0 ^^^
       (writeBytes (writeBytes B 532 (calculatePWD B)) 536 [0x80, 0x80]).getD 6 0 ^^^
       (writeBytes (writeBytes B 532 (calculatePWD B)) 536 [0x80, 0x80]).getD 7 0) ∧
    slice (writeBytes (writeBytes B 532 (calculatePWD B)) 536 [0x80, 0x80]) 532 536 =
      calculatePWD (writeBytes (writeBytes B 532 (calculatePWD B)) 536 [0x80, 0x80]) ∧
    slice (writeBytes (writeBytes B 532 (calculatePWD B)) 536 [0x80, 0x80]) 536 538 =
      [0x80, 0x80] := by
  have hlow : ∀ j, j < 9 →
      (writeBytes (writeBytes B 532 (calculatePWD B)) 536 [0x80, 0x80]).getD j 0 =
        B.getD j 0 := by
    intro j hj
    rw [writeBytes_getD_miss _ _ _ _ (Or.inl (by omega)),
        writeBytes_getD_miss _ _ _ _ (Or.inl (by omega))]
  refine ⟨?_, ?_, ?_, ?_⟩
  · rw [length_writeBytes, length_writeBytes, hB]
  · rw [hlow 8 (by omega), hlow 4 (by omega), hlow 5 (by omega),
        hlow 6 (by omega), hlow 7 (by omega)]
    exact h8
  · have hd : slice (writeBytes (writeBytes B 532 (calculatePWD B)) 536 [0x80, 0x80]) 532 536 =
        slice (writeBytes B 532 (calculatePWD B)) 532 536 :=
      slice_writeBytes_disjoint _ _ _ _ _ (Or.inl (by omega))
    have he := slice_writeBytes_exact B (calculatePWD B) 532
      (by rw [length_calculatePWD, hB]; omega)
    rw [length_calculatePWD] at he
    norm_num at he
    rw [hd, he]
    exact calculatePWD_congr _ _ (fun j hj => (hlow j (by omega)).symm)
  · have he := slice_writeBytes_exact (writeBytes B 532 (calculatePWD B)) [0x80, 0x80] 536
      (by rw [length_writeBytes, hB]; norm_num)
    norm_num at he ⊢
    exact he

/-- `changeUID`'s post-pack tail (position-8 patch at 8, amiibo-id restore
at 84, then PWD/PACK) establishes the structural invariants for any oracle
whose `pack` returned the 540-byte image `P`. -/
theorem changeUIDTail_invariants (P am A B : List Nat) (hP : P.length = 540)
    (hA : A = writeBytes P 8 [P.getD 4 0 ^^^ P.getD 5 0 ^^^ P.getD 6 0 ^^^ P.getD 7 0])
    (hB : B = writeBytes A 84 am) :
    (writeBytes (writeBytes B 532 (calculatePWD B)) 536 [0x80, 0x80]).length = 540 ∧
    (writeBytes (writeBytes B 532 (calculatePWD B)) 536 [0x80, 0x80]).getD 8 0 =
      ((writeBytes (writeBytes B 532 (calculatePWD B)) 536 [0x80, 0x80]).getD 4 0 ^^^
       (writeBytes (writeBytes B 532 (calculatePWD B)) 536 [0x80, 0x80]).getD 5 0 ^^^
       (writeBytes (writeBytes B 532 (calculatePWD B)) 536 [0x80, 0x80]).getD 6 0 ^^^
       (writeBytes (writeBytes B 532 (calculatePWD B)) 536 [0x80, 0x80]).getD 7 0) ∧
    slice (writeBytes (writeBytes B 532 (calculatePWD B)) 536 [0x80, 0x80]) 532 536 =
      calculatePWD (writeBytes (writeBytes B 532 (calculatePWD B)) 536 [0x80, 0x80]) ∧
    slice (writeBytes (writeBytes B 532 (calculatePWD B)) 536 [0x80, 0x80]) 536 538 =
      [0x80, 0x80] := by
  apply pwdPackTail_invariants
  · rw [hB, length_writeBytes, hA, length_writeBytes, hP]
  · have emiss : ∀ j, j < 8 → B.getD j 0 = P.getD j 0 := by
      intro j hj
      rw [hB, writeBytes_getD_miss _ _ 84 j (Or.inl (by omega)), hA,
          writeBytes_getD_miss _ _ 8 j (Or.inl (by omega))]
    have e8 : B.getD 8 0 = P.getD 4 0 ^^^ P.getD 5 0 ^^^ P.getD 6 0 ^^^ P.getD 7 0 := by
      rw [hB, writeBytes_getD_miss _ _ 84 8 (Or.inl (by omega)), hA,
          writeBytes_getD_hit _ _ 8 8 (by omega) (by simp) (by rw [hP]; omega)]
      norm_num
    rw [e8, emiss 4 (by omega), emiss 5 (by omega), emiss 6 (by omega),
        emiss 7 (by omega)]

/-- `generateFresh`'s post-pack tail (magic re-patch at 9, position-8 patch,
then PWD/PACK) establishes the structural invariants — including the magic
block one — for any oracle whose `pack` returned the 540-byte image `P`. -/
theorem generateFreshTail_invariants (P Q B : List Nat) (hP : P.length = 540)
    (hQ : Q = writeBytes P 9 magicBytes1)
    (hB : B = writeBytes Q 8 [Q.getD 4 0 ^^^ Q.getD 5 0 ^^^ Q.getD 6 0 ^^^ Q.getD 7 0]) :
    (writeBytes (writeBytes B 532 (calculatePWD B)) 536 [0x80, 0x80]).length = 540 ∧
    (writeBytes (writeBytes B 532 (calculatePWD B)) 536 [0x80, 0x80]).getD 8 0 =
      ((writeBytes (writeBytes B 532 (calculatePWD B)) 536 [0x80, 0x80]).getD 4 0 ^^^
       (writeBytes (writeBytes B 532 (calculatePWD B)) 536 [0x80, 0x80]).getD 5 0 ^^^
       (writeBytes (writeBytes B 532 (calculatePWD B)) 536 [0x80, 0x80]).getD 6 0 ^^^
       (writeBytes (writeBytes B 532 (calculatePWD B)) 536 [0x80, 0x80]).getD 7 0) ∧
    slice (writeBytes (writeBytes B 532 (calculatePWD B)) 536 [0x80, 0x80]) 532 536 =
      calculatePWD (writeBytes (writeBytes B 532 (calculatePWD B)) 536 [0x80, 0x80]) ∧
    slice (writeBytes (writeBytes B 532 (calculatePWD B)) 536 [0x80, 0x80]) 536 538 =
      [0x80, 0x80] ∧
    slice (writeBytes (writeBytes B 532 (calculatePWD B)) 536 [0x80, 0x80]) 9 17 =
      magicBytes1 := by
  have hQlen : Q.length = 540 := by rw [hQ, length_writeBytes, hP]
  have hmain := pwdPackTail_invariants B (by rw [hB, length_writeBytes, hQlen]) ?h8
  case h8 =>
    have emiss : ∀ j, j < 8 → B.getD j 0 = Q.getD j 0 := by
      intro j hj
      rw [hB, writeBytes_getD_miss _ _ 8 j (Or.inl (by omega))]
    have e8 : B.getD 8 0 = Q.getD 4 0 ^^^ Q.getD 5 0 ^^^ Q.getD 6 0 ^^^ Q.getD 7 0 := by
      rw [hB, writeBytes_getD_hit _ _ 8 8 (by omega) (by simp) (by rw [hQlen]; omega)]
      norm_num
    rw [e8, emiss 4 (by omega), emiss 5 (by omega), emiss 6 (by omega),
        emiss 7 (by omega)]
  refine ⟨hmain.1, hmain.2.1, hmain.2.2.1, hmain.2.2.2, ?_⟩
  rw [slice_writeBytes_disjoint _ _ 536 9 17 (Or.inl (by omega)),
      slice_writeBytes_disjoint _ _ 532 9 17 (Or.inl (by omega)), hB,
      slice_writeBytes_disjoint _ _ 8 9 17 (Or.inr (by simp)), hQ]
  have he := slice_writeBytes_exact P magicBytes1 9
    (by rw [hP]; norm_num [magicBytes1])
  norm_num [magicBytes1] at he ⊢
  exact he


/-- The structural invariants hold for every `changeUIDPost` image, for any
oracle whose `pack` always returns 540 bytes. -/
theorem changeUIDPost_invariants (o : Oracle) (td up uid : List Nat)
    (hpack : ∀ l, (o.pack l).length = 540) :
    (changeUIDPost o td up uid).length = 540 ∧
    (changeUIDPost o td up uid).getD 8 0 =
      ((changeUIDPost o td up uid).getD 4 0 ^^^ (changeUIDPost o td up uid).getD 5 0 ^^^
       (changeUIDPost o td up uid).getD 6 0 ^^^ (changeUIDPost o td up uid).getD 7 0) ∧
    slice (changeUIDPost o td up uid) 532 536 = calculatePWD (changeUIDPost o td up uid) ∧
    slice (changeUIDPost o td up uid) 536 538 = [0x80, 0x80] :=
  changeUIDTail_invariants
    (o.pack (writeBytes up 468
      [uid.getD 0 0, uid.getD 1 0, uid.getD 2 0, calculateBCC0 uid,
       uid.getD 3 0, uid.getD 4 0, uid.getD 5 0, uid.getD 6 0]))
    (slice td 84 92) _ _ (hpack _) rfl rfl

/-- The structural invariants — including the magic-block one — hold for
every `generateFreshPost` image, for any oracle whose `pack` always returns
540 bytes. -/
theorem generateFreshPost_invariants (o : Oracle) (uid idb : List Nat)
    (hpack : ∀ l, (o.pack l).length = 540) :
    (generateFreshPost o uid idb).length = 540 ∧
    (generateFreshPost o uid idb).getD 8 0 =
      ((generateFreshPost o uid idb).getD 4 0 ^^^ (generateFreshPost o uid idb).getD 5 0 ^^^
       (generateFreshPost o uid idb).getD 6 0 ^^^ (generateFreshPost o uid idb).getD 7 0) ∧
    slice (generateFreshPost o uid idb) 532 536 = calculatePWD (generateFreshPost o uid idb) ∧
    slice (generateFreshPost o uid idb) 536 538 = [0x80, 0x80] ∧
    slice (generateFreshPost o uid idb) 9 17 = magicBytes1 :=
  generateFreshTail_invariants
    (o.pack (writeBytes (writeBytes (writeBytes (writeBytes (List.replicate 540 0) 468
      [uid.getD 0 0, uid.getD 1 0, uid.getD 2 0, calculateBCC0 uid,
       uid.getD 3 0, uid.getD 4 0, uid.getD 5 0, uid.getD 6 0]) 9 magicBytes1)
      520 magicBytes2) 476 idb))
    _ _ (hpack _) rfl rfl

/-- Inversion for a successful `changeUID` run: the template read and the
oracle decode succeeded, the UID derivation succeeded, and the persisted
image is the `changeUIDPost` of those intermediate values. -/
theorem changeUID_ok_elim (o : Oracle) (t : SrcFile) (cu : Option String)
    (rnd out : List Nat) (h : changeUID o t cu rnd = .ok out) :
    ∃ td uid, readTemplateFile t = .ok td ∧ (o.unpack td).1 = true ∧
      deriveNewUID cu rnd = .ok uid ∧
      out = changeUIDPost o td (o.unpack td).2 uid := by
  unfold changeUID at h
  split at h
  · exact absurd h (by simp)
  · rename_i td ht
    split at h
    · exact absurd h (by simp)
    · rename_i hu
      split at h
      · exact absurd h (by simp)
      · rename_i uid hd
        refine ⟨td, uid, ht, ?_, hd, ?_⟩
        · simpa using hu
        · injection h with h'
          exact h'.symm

/-- Inversion for a successful `generateFresh` run. -/
theorem generateFresh_ok_elim (o : Oracle) (aid : String) (cu : Option String)
    (rnd out : List Nat) (h : generateFresh o aid cu rnd = .ok out) :
    ∃ uid, deriveNewUID cu rnd = .ok uid ∧ aid.length = 16 ∧
      out = generateFreshPost o uid (parseAmiiboIdBytes aid) := by
  unfold generateFresh at h
  split at h
  · exact absurd h (by simp)
  · rename_i uid hd
    split at h
    · exact absurd h (by simp)
    · rename_i hl
      refine ⟨uid, hd, by omega, ?_⟩
      injection h with h'
      exact h'.symm

/-- The only error `deriveNewUID` can raise is `ValidationError` (from
`parseCustomUID`). -/
theorem deriveNewUID_error_elim (cu : Option String) (rnd : List Nat)
    (e : AmiiboError) (h : deriveNewUID cu rnd = .error e) :
    e = AmiiboError.validationError := by
  cases cu with
  | none => simp [deriveNewUID] at h
  | some s =>
    by_cases he : s = ""
    · simp [deriveNewUID, he] at h
    · by_cases hl : s.length = 14
      · simp [deriveNewUID, parseCustomUID, he, hl, Except.map] at h
      · simp [deriveNewUID, parseCustomUID, he, hl, Except.map] at h
        exact h.symm

/-- `changeUID`'s post-pack tail leaves the bytes written at 84–91 (the
captured amiibo id) intact through the later PWD/PACK patches. -/
theorem changeUIDTail_amiibo (P am A B : List Nat) (hP : P.length = 540)
    (ham : am.length = 8)
    (hA : A = writeBytes P 8 [P.getD 4 0 ^^^ P.getD 5 0 ^^^ P.getD 6 0 ^^^ P.getD 7 0])
    (hB : B = writeBytes A 84 am) :
    slice (writeBytes (writeBytes B 532 (calculatePWD B)) 536 [0x80, 0x80]) 84 92 = am := by
  rw [slice_writeBytes_disjoint _ _ 536 84 92 (Or.inl (by omega)),
      slice_writeBytes_disjoint _ _ 532 84 92 (Or.inl (by omega)), hB]
  have he := slice_writeBytes_exact A am 84
    (by rw [ham, hA, length_writeBytes, hP]; omega)
  rw [ham] at he
  norm_num at he
  exact he

theorem layoutOracle_pack_length (l : List Nat) (hl : l.length = 540) :
    (layoutOracle.pack l).length = 540 := by
  simp [layoutOracle, length_slice, hl]

theorem layoutOracle_pack_uid (l : List Nat) (hl : l.length = 540) :
    slice (layoutOracle.pack l) 0 8 = slice l 468 476 := by
  show slice (slice l 468 476 ++ (slice l 8 84 ++ (slice l 476 484 ++ slice l 92 540))) 0 8 =
    slice l 468 476
  unfold slice
  rw [List.drop_zero]
  exact List.take_left' (by rw [List.length_take, List.length_drop, hl]; norm_num)

theorem layoutOracle_pack_id (l : List Nat) (hl : l.length = 540) :
    slice (layoutOracle.pack l) 84 92 = slice l 476 484 := by
  show slice (slice l 468 476 ++ (slice l 8 84 ++ (slice l 476 484 ++ slice l 92 540))) 84 92 =
    slice l 476 484
  unfold slice
  rw [← List.append_assoc,
      List.drop_left' (by simp only [List.length_append, List.length_take,
        List.length_drop, hl]; norm_num)]
  exact List.take_left' (by rw [List.length_take, List.length_drop, hl]; norm_num)

/-! ### The claims -/

set_option maxRecDepth 8192 in
/-- C1 (counterexample): on a 540-byte file whose oracle decode reports an
invalid signature, `validateBin` does not return a report object at all — it
returns the early `false` — refuting the claim that it still reports
`position8Valid`/`pwdValid`/`packValid` alongside `hmacValid=false`. -/
theorem validateBin_badSig_no_report :
    (validateBin badSigOracle (some (SrcFile.bin zeros540))).isReport = false := by rfl

/-- C1 (amended): a failed oracle decode short-circuits `validateBin`: for
every 540-byte (indeed, any) binary input whose unpack reports an invalid
signature, the whole file is reported as the bare invalid result and the
position8/pwd/pack checks are never computed or reported. -/
theorem validateBin_badSig_shortCircuits (o : Oracle) (d : List Nat)
    (hsig : (o.unpack d).1 = false) :
    validateBin o (some (SrcFile.bin d)) = .invalid := by
  simp [validateBin, readTemplateFile, hsig]

/-- C1 (witness): the short-circuit theorem applied to the zero image and the
always-failing oracle. -/
theorem validateBin_badSig_shortCircuits_witness :
    validateBin badSigOracle (some (SrcFile.bin zeros540)) = .invalid :=
  validateBin_badSig_shortCircuits badSigOracle zeros540 rfl

/-- C2 (counterexample): a 14-character string made of non-hex characters
does not fail with `ValidationError` — `parseCustomUID` returns successfully,
with every byte the `NaN` (`none`) of `parseInt`. -/
theorem parseCustomUID_nonhex14_no_error :
    parseCustomUID "zzzzzzzzzzzzzz" =
      .ok [none, none, none, none, none, none, none] := by rfl

/-- C2 (amended): `parseCustomUID` succeeds exactly when the input string has
length 14; hexness is never checked (non-hex pairs parse to `NaN`), and
byte 0 is not required to be `0x04`. -/
theorem parseCustomUID_ok_iff_length14 (s : String) :
    isOkE (parseCustomUID s) = true ↔ s.length = 14 := by
  by_cases h : s.length = 14
  · simp [parseCustomUID, h, isOkE]
  · simp [parseCustomUID, h, isOkE]

/-- C3 (counterexample): the claimed value of the pwd4 example is wrong:
`calculatePWD` on the packed UID `[04 AA BB CC DD EE FF 11]` does not yield
`[DD 9E 62 3A]`. -/
theorem calculatePWD_spec_example_refuted :
    calculatePWD [0x04, 0xAA, 0xBB, 0xCC, 0xDD, 0xEE, 0xFF, 0x11] ≠
      [0xDD, 0x9E, 0x62, 0x3A] := by decide

/-- C3 (amended): on `[04 AA BB CC DD EE FF 11]` the skip-BCC0
reconstruction gives `uid7' = [04 AA BB DD EE FF 11]` and the fixed XOR
formulas yield `[AA^AA^DD, 55^BB^EE, AA^DD^FF, 55^EE^11] = [DD 00 88 AA]`. -/
theorem calculatePWD_example_value :
    calculatePWD [0x04, 0xAA, 0xBB, 0xCC, 0xDD, 0xEE, 0xFF, 0x11] =
      [0xDD, 0x00, 0x88, 0xAA] := by decide

/-- C10: batch validation returns exactly one result per input, in input
order, and the summary counts satisfy
`validCount + invalidCount = total = number of inputs`. -/
theorem validateFiles_batch_counts (o : Oracle) (files : List (Option SrcFile)) :
    (validateFiles o files).results.map Prod.fst = files ∧
    (validateFiles o files).results.length = files.length ∧
    (validateFiles o files).validCount + (validateFiles o files).invalidCount =
      (validateFiles o files).total ∧
    (validateFiles o files).total = files.length := by
  have hle := List.length_filter_le (fun p => isValidResult p.2)
    (files.map (fun f => (f, validateBin o f)))
  refine ⟨?_, ?_, ?_, ?_⟩
  · simp [validateFiles, Function.comp_def]
  · simp [validateFiles]
  · simp only [validateFiles]
    omega
  · simp [validateFiles]

/-- C6: every `ValidationError` (malformed custom UID / malformed character
id) and `HmacError` (failed oracle decode) in `changeUID` or `generateFresh`
aborts the pipeline with an error result — the persist step is never reached,
so nothing is written (an `.ok` payload is the only way bytes reach
`fs.writeFileSync` in this model). The custom-UID `ValidationError` occurs
exactly when a non-empty custom UID of the wrong length is supplied: the
empty string is JS-falsy, takes the random-UID branch, and raises no error. -/
theorem pipelines_abort_on_error (o : Oracle) (tmpl : SrcFile) (td : List Nat)
    (cu : Option String) (rnd : List Nat) (s aid : String) :
    (readTemplateFile tmpl = .ok td → (o.unpack td).1 = false →
      changeUID o tmpl cu rnd = .error .hmacError) ∧
    (readTemplateFile tmpl = .ok td → (o.unpack td).1 = true → s ≠ "" →
      s.length ≠ 14 → changeUID o tmpl (some s) rnd = .error .validationError) ∧
    (s ≠ "" → s.length ≠ 14 →
      generateFresh o aid (some s) rnd = .error .validationError) ∧
    (aid.length ≠ 16 → generateFresh o aid cu rnd = .error .validationError) := by
  refine ⟨?_, ?_, ?_, ?_⟩
  · intro ht hu
    unfold changeUID
    rw [ht]
    simp [hu]
  · intro ht hu he hs
    unfold changeUID
    rw [ht]
    simp [hu, deriveNewUID, parseCustomUID, he, hs, Except.map]
  · intro he hs
    unfold generateFresh
    simp [deriveNewUID, parseCustomUID, he, hs, Except.map]
  · intro ha
    unfold generateFresh
    cases hd : deriveNewUID cu rnd with
    | error e =>
      rw [deriveNewUID_error_elim cu rnd e hd]
    | ok uid =>
      simp [ha]

/-- C6 (witness): concrete aborts — failed decode in `changeUID`, a 3-char
custom UID in both pipelines, and a 3-char character id in `generateFresh`. -/
theorem pipelines_abort_on_error_witness :
    changeUID badSigOracle (SrcFile.bin zeros540) none [] = .error .hmacError ∧
    changeUID padOracle (SrcFile.bin zeros540) (some "xyz") [] = .error .validationError ∧
    generateFresh padOracle "1919000000090002" (some "xyz") [] = .error .validationError ∧
    generateFresh padOracle "123" none [] = .error .validationError :=
  ⟨(pipelines_abort_on_error badSigOracle (SrcFile.bin zeros540) zeros540 none [] "xyz"
      "1919000000090002").1 rfl rfl,
   (pipelines_abort_on_error padOracle (SrcFile.bin zeros540) zeros540 (some "xyz") [] "xyz"
      "1919000000090002").2.1 rfl rfl (by decide) (by decide),
   (pipelines_abort_on_error padOracle (SrcFile.bin zeros540) zeros540 none [] "xyz"
      "1919000000090002").2.2.1 (by decide) (by decide),
   (pipelines_abort_on_error padOracle (SrcFile.bin zeros540) zeros540 none [] "xyz"
      "123").2.2.2 (by decide)⟩

set_option maxRecDepth 100000 in
/-- C7 (counterexample): a file containing a line that starts like a page
line but fails the page grammar does not fail with `FormatError` — the line
is silently skipped and the file parses successfully (the remaining 135
well-formed lines supply the 540 bytes). -/
theorem parseNFCFile_malformed_line_no_error :
    jsStartsWith "Page ".toList "Page X: ZZ".toList = true ∧
    scanPageMatch "Page X: ZZ".toList = none ∧
    parseNFCFile malformedNfc = .ok (pagesOf malformedNfc) ∧
    (pagesOf malformedNfc).length = 540 := by
  refine ⟨by rfl, by rfl, by rfl, by rfl⟩

/-- C7 (amended): the text adapter fails with `FormatError` exactly when the
first line lacks the device-header marker; with the header present, a
malformed total only raises `SizeError`, and a data line that starts like a
page line but fails the page grammar is silently skipped (contributes no
bytes and no error). -/
theorem parseNFCFile_error_characterization (content : String) (line : List Char) :
    (parseNFCFile content = .error .formatError ↔ headerOk content = false) ∧
    (headerOk content = true → (pagesOf content).length ≠ 540 →
      parseNFCFile content = .error .sizeError) ∧
    (jsStartsWith "Page ".toList line = true → scanPageMatch line = none →
      lineBytes line = []) := by
  refine ⟨?_, ?_, ?_⟩
  · by_cases hh : headerOk content <;> by_cases hl : (pagesOf content).length = 540 <;>
      simp [parseNFCFile, hh, hl]
  · intro hh hl
    simp [parseNFCFile, hh, hl]
  · intro h1 h2
    simp [lineBytes, h1, h2]

/-- C7 (witness): header-only content raises `SizeError` (not
`FormatError`), and the malformed page line contributes nothing. -/
theorem parseNFCFile_error_characterization_witness :
    parseNFCFile headerOnlyNfc = .error .sizeError ∧ lineBytes "Page X: ZZ".toList = [] :=
  ⟨(parseNFCFile_error_characterization headerOnlyNfc "Page X: ZZ".toList).2.1
      (by rfl) (by decide),
   (parseNFCFile_error_characterization headerOnlyNfc "Page X: ZZ".toList).2.2
      (by rfl) (by rfl)⟩

set_option maxRecDepth 100000 in
/-- C8 (counterexample): the 540-byte size requirement is checked at read
time in the mutate pipeline when the template uses the text adapter: a
header-only `.nfc` template makes `changeUID` fail with `SizeError` before
the oracle is ever consulted — refuting "never checked at read time in
mutate/generate ... regardless of its format adapter". -/
theorem changeUID_nfc_size_check_example :
    changeUID padOracle (SrcFile.nfc headerOnlyNfc) none [] = .error .sizeError := by rfl

/-- C8 (amended): the validate operation reports any non-540-byte binary
buffer wholly invalid without consulting the oracle; the mutate pipeline
performs no size check on the binary path (a wrong-sized `.bin` template
still reaches the oracle decode, failing with `HmacError`, never
`SizeError`); the text adapter, by contrast, enforces the 540-byte total in
every pipeline (`generateFresh` reads no input file at all). -/
theorem size_check_asymmetry (o : Oracle) (d rnd : List Nat) (content : String)
    (bytes : List Nat) :
    (d.length ≠ 540 → validateBin o (some (SrcFile.bin d)) = .invalid) ∧
    ((∀ l, (o.unpack l).1 = false) → changeUID o (SrcFile.bin d) none rnd = .error .hmacError) ∧
    (readTemplateFile (SrcFile.nfc content) = .ok bytes → bytes.length = 540) := by
  refine ⟨?_, ?_, ?_⟩
  · intro h
    simp [validateBin, readTemplateFile, h]
  · intro h
    unfold changeUID
    simp [readTemplateFile, h]
  · intro h
    simp only [readTemplateFile, parseNFCFile] at h
    by_cases hh : headerOk content
    · rw [if_neg (by simp [hh])] at h
      by_cases hl : (pagesOf content).length = 540
      · rw [if_neg (by omega)] at h
        injection h with h'
        rw [← h']
        exact hl
      · rw [if_pos hl] at h
        exact absurd h (by simp)
    · rw [if_pos (by simp [hh])] at h
      exact absurd h (by simp)

set_option maxRecDepth 100000 in
/-- C8 (witness): a 3-byte binary buffer is invalid in validate for a
concrete oracle, reaches the decode in `changeUID`, and a concrete
successful text-adapter read returns exactly 540 bytes. -/
theorem size_check_asymmetry_witness :
    validateBin badSigOracle (some (SrcFile.bin [1, 2, 3])) = .invalid ∧
    changeUID badSigOracle (SrcFile.bin [1, 2, 3]) none [] = .error .hmacError ∧
    (pagesOf malformedNfc).length = 540 :=
  ⟨(size_check_asymmetry badSigOracle [1, 2, 3] [] malformedNfc []).1 (by decide),
   (size_check_asymmetry badSigOracle [1, 2, 3] [] malformedNfc []).2.1 (fun l => rfl),
   (size_check_asymmetry badSigOracle [1, 2, 3] [] malformedNfc
      (pagesOf malformedNfc)).2.2 (by rfl)⟩

theorem genLogical_length (uid idb : List Nat) : (genLogical uid idb).length = 540 := by
  simp [genLogical, length_writeBytes]

/-- The post-pack patches of `generateFresh` (magic at 9, position 8, PWD,
PACK) leave the packed regions 0–7 and 84–91 exactly as the oracle's encode
produced them. -/
theorem generateFreshTail_slices (P Q B : List Nat)
    (hQ : Q = writeBytes P 9 magicBytes1)
    (hB : B = writeBytes Q 8 [Q.getD 4 0 ^^^ Q.getD 5 0 ^^^ Q.getD 6 0 ^^^ Q.getD 7 0]) :
    slice (writeBytes (writeBytes B 532 (calculatePWD B)) 536 [0x80, 0x80]) 0 8 =
      slice P 0 8 ∧
    slice (writeBytes (writeBytes B 532 (calculatePWD B)) 536 [0x80, 0x80]) 84 92 =
      slice P 84 92 := by
  constructor
  · rw [slice_writeBytes_disjoint _ _ 536 0 8 (Or.inl (by omega)),
        slice_writeBytes_disjoint _ _ 532 0 8 (Or.inl (by omega)), hB,
        slice_writeBytes_disjoint _ _ 8 0 8 (Or.inl (by omega)), hQ,
        slice_writeBytes_disjoint _ _ 9 0 8 (Or.inl (by omega))]
  · rw [slice_writeBytes_disjoint _ _ 536 84 92 (Or.inl (by omega)),
        slice_writeBytes_disjoint _ _ 532 84 92 (Or.inl (by omega)), hB,
        slice_writeBytes_disjoint _ _ 8 84 92 (Or.inr (by norm_num)), hQ,
        slice_writeBytes_disjoint _ _ 9 84 92 (Or.inr (by norm_num [magicBytes1]))]

/-- C5: for every template file, every UID choice (custom or random) and
every contract-conforming behaviour of the oracle encode, the image persisted
by `changeUID` has bytes 84–92 equal to bytes 84–92 of the original packed
template (captured before decoding, written back over the encoded output). -/
theorem changeUID_preserves_amiiboId (o : Oracle) (tmpl : SrcFile) (cu : Option String)
    (rnd td out : List Nat)
    (hpack : ∀ l, (o.pack l).length = 540)
    (ht : readTemplateFile tmpl = .ok td)
    (hlen : td.length = 540)
    (h : changeUID o tmpl cu rnd = .ok out) :
    slice out 84 92 = slice td 84 92 := by
  obtain ⟨td2, uid, ht2, hu, hd, hout⟩ := changeUID_ok_elim o tmpl cu rnd out h
  rw [ht] at ht2
  injection ht2 with htd
  subst htd
  subst hout
  exact changeUIDTail_amiibo
    (o.pack (writeBytes (o.unpack td).2 468
      [uid.getD 0 0, uid.getD 1 0, uid.getD 2 0, calculateBCC0 uid,
       uid.getD 3 0, uid.getD 4 0, uid.getD 5 0, uid.getD 6 0]))
    (slice td 84 92) _ _ (hpack _)
    (by rw [length_slice, hlen]; norm_num) rfl rfl

/-- C5 (witness): the preservation theorem applied to a concrete template
whose bytes 84–91 are `[1..8]`, under the padding oracle. -/
theorem changeUID_preserves_amiiboId_witness :
    slice c5out 84 92 = slice tmplWithId 84 92 :=
  changeUID_preserves_amiiboId padOracle (SrcFile.bin tmplWithId) none
    [9, 9, 9, 9, 9, 9] tmplWithId c5out
    (fun l => by
      simp only [padOracle, List.length_take, List.length_append, List.length_replicate]
      omega)
    rfl
    (by simp [tmplWithId, length_writeBytes, zeros540])
    rfl

/-- C4 (counterexample): under a contract-conforming oracle encode (540-byte
output), the image persisted by `changeUID` can violate the
`packed[3] = Bcc0(packed[0], packed[1], packed[2])` invariant — the code
never re-establishes BCC0 on the packed bytes after the oracle encode. -/
theorem changeUID_bcc0_invariant_refuted :
    changeUID zeroPackOracle (SrcFile.bin zeros540) none [0, 0, 0, 0, 0, 0] = .ok c4out ∧
    c4out.getD 3 0 ≠ calculateBCC0 c4out := by
  exact ⟨rfl, by decide⟩

/-- C4 (amended): for every contract-conforming oracle encode, every image
persisted by `changeUID` or `generateFresh` has length 540, satisfies the
position-8 equation, carries `Pwd4` at 532–536 and `[0x80, 0x80]` at
536–538; `generateFresh` additionally guarantees the magic constant at 9–17.
(The BCC0 invariant — and, for `changeUID`, the magic block — depend on the
oracle's encode layout and are not enforced by the code.) -/
theorem persisted_image_invariants (o : Oracle) (tmpl : SrcFile) (cu : Option String)
    (rnd : List Nat) (aid : String) (outC outG : List Nat)
    (hpack : ∀ l, (o.pack l).length = 540)
    (hc : changeUID o tmpl cu rnd = .ok outC)
    (hg : generateFresh o aid cu rnd = .ok outG) :
    (outC.length = 540 ∧
     outC.getD 8 0 = (outC.getD 4 0 ^^^ outC.getD 5 0 ^^^ outC.getD 6 0 ^^^ outC.getD 7 0) ∧
     slice outC 532 536 = calculatePWD outC ∧
     slice outC 536 538 = [0x80, 0x80]) ∧
    (outG.length = 540 ∧
     outG.getD 8 0 = (outG.getD 4 0 ^^^ outG.getD 5 0 ^^^ outG.getD 6 0 ^^^ outG.getD 7 0) ∧
     slice outG 532 536 = calculatePWD outG ∧
     slice outG 536 538 = [0x80, 0x80] ∧
     slice outG 9 17 = magicBytes1) := by
  obtain ⟨td, uid, ht, hu, hd, hoc⟩ := changeUID_ok_elim o tmpl cu rnd outC hc
  obtain ⟨uid2, hd2, hl, hog⟩ := generateFresh_ok_elim o aid cu rnd outG hg
  subst hoc
  subst hog
  exact ⟨changeUIDPost_invariants o td _ uid hpack,
         generateFreshPost_invariants o uid2 _ hpack⟩

/-- C4 (witness): the invariants theorem applied to concrete runs of both
pipelines under the padding oracle. -/
theorem persisted_image_invariants_witness :
    (c4outC.length = 540 ∧
     c4outC.getD 8 0 = (c4outC.getD 4 0 ^^^ c4outC.getD 5 0 ^^^ c4outC.getD 6 0 ^^^ c4outC.getD 7 0) ∧
     slice c4outC 532 536 = calculatePWD c4outC ∧
     slice c4outC 536 538 = [0x80, 0x80]) ∧
    (c4outG.length = 540 ∧
     c4outG.getD 8 0 = (c4outG.getD 4 0 ^^^ c4outG.getD 5 0 ^^^ c4outG.getD 6 0 ^^^ c4outG.getD 7 0) ∧
     slice c4outG 532 536 = calculatePWD c4outG ∧
     slice c4outG 536 538 = [0x80, 0x80] ∧
     slice c4outG 9 17 = magicBytes1) :=
  persisted_image_invariants padOracle (SrcFile.bin zeros540) none [1, 2, 3, 4, 5, 6]
    "1919000000090002" c4outC c4outG
    (fun l => by
      simp only [padOracle, List.length_take, List.length_append, List.length_replicate]
      omega)
    rfl rfl

/-- C9: under any oracle whose encode carries the logical UID block 468–476
to packed 0–8 and the logical character id 476–484 to packed 84–92 (the
layout the spec's offset table prescribes), the `generateFresh` scenario with
character id `1919000000090002` and custom UID `0451186d0da09e` persists an
image whose bytes 0–8 are `[04 51 18 bcc0 6d 0d a0 9e]` with
`bcc0 = 04^51^18^88`, and whose bytes 84–92 read back as hex
`1919000000090002`. -/
theorem generateFresh_pikachu_scenario (o : Oracle) (rnd out : List Nat)
    (huid : ∀ l, l.length = 540 → slice (o.pack l) 0 8 = slice l 468 476)
    (hid : ∀ l, l.length = 540 → slice (o.pack l) 84 92 = slice l 476 484)
    (h : generateFresh o "1919000000090002" (some "0451186d0da09e") rnd = .ok out) :
    slice out 0 8 =
      [0x04, 0x51, 0x18, 0x04 ^^^ 0x51 ^^^ 0x18 ^^^ 0x88, 0x6d, 0x0d, 0xa0, 0x9e] ∧
    bytesToHex (slice out 84 92) = "1919000000090002" := by
  obtain ⟨uid, hd, hl, hout⟩ := generateFresh_ok_elim o _ _ rnd out h
  have huidv : uid = [0x04, 0x51, 0x18, 0x6d, 0x0d, 0xa0, 0x9e] := by
    have h0 : deriveNewUID (some "0451186d0da09e") rnd =
        .ok [0x04, 0x51, 0x18, 0x6d, 0x0d, 0xa0, 0x9e] := by rfl
    rw [h0] at hd
    injection hd with h1
    exact h1.symm
  subst huidv
  subst hout
  have hs := generateFreshTail_slices
    (o.pack (genLogical [0x04, 0x51, 0x18, 0x6d, 0x0d, 0xa0, 0x9e]
      (parseAmiiboIdBytes "1919000000090002")))
    _ _ rfl rfl
  constructor
  · exact hs.1.trans ((huid _ (genLogical_length _ _)).trans (by decide))
  · have hmid : slice (genLogical [0x04, 0x51, 0x18, 0x6d, 0x0d, 0xa0, 0x9e]
        (parseAmiiboIdBytes "1919000000090002")) 476 484 =
        [0x19, 0x19, 0x00, 0x00, 0x00, 0x09, 0x00, 0x02] := by decide
    exact (congrArg bytesToHex
      (hs.2.trans ((hid _ (genLogical_length _ _)).trans hmid))).trans (by decide)

/-- C9 (witness): the scenario theorem applied to the concrete layout
oracle. -/
theorem generateFresh_pikachu_scenario_witness :
    slice c9out 0 8 =
      [0x04, 0x51, 0x18, 0x04 ^^^ 0x51 ^^^ 0x18 ^^^ 0x88, 0x6d, 0x0d, 0xa0, 0x9e] ∧
    bytesToHex (slice c9out 84 92) = "1919000000090002" :=
  generateFresh_pikachu_scenario layoutOracle [] c9out
    layoutOracle_pack_uid layoutOracle_pack_id rfl

end AmiiboTool
